import Mathlib

/-!
Verification of the categorical/temporal field parsers of `mimic_utils`
(`src/mimic_utils/parsers.py`), as a shallow embedding.

Modelling notes, tied to the source:
* A pandas `Series` of raw text values is a `List (Option String)`; `none`
  is a missing value (`NaN` cell).
* Every categorical parser in the source runs the same loop:
  `mapped_values = np.empty(n) * np.nan` (an all-NaN array, which turns
  into the string `"nan"` once `np.where` broadcasts it with a string
  label), then for each `(key, regexp)` of its mapping dict, in dict
  order, `mapped_values = np.where(values.str.contains(regexp), key,
  mapped_values)`.  This is an overwrite-on-match fold: a later matching
  rule overwrites the label written by an earlier one.  We embed it as
  `overwriteFold` / `classify`.
* The regexes used by the source are pure literal alternations
  (`"(WHITE)|(PORTUGUESE)"`, the escaped `"(\?)"`, plain `"M"`), so each
  rule is embedded as a list of literal substrings, matched by
  case-sensitive containment (`pandas.Series.str.contains` defaults to
  `case=True`).
* On a missing cell (default object dtype), `str.contains` yields `NaN`,
  and `np.where` treats `NaN` as a truthy condition; `npTruthy none =
  true` embeds that.
* `parse_gender` and `parse_race` finish with
  `pd.Series(...).replace("nan", default)`; the other categorical
  parsers return the array as is, `"nan"` cells included.
* Python exceptions (`UnboundLocalError` from reading a never-assigned
  local, `ValueError` from `int()`, `ZeroDivisionError` from `0.0 **
  -2`) are embedded as `Except PyError`; floats are embedded as `Rat`.
-/

namespace MimicUtils

/-- Bool-valued substring containment on character lists:
`pat` occurs contiguously inside `hay`. -/
def listContains (hay pat : List Char) : Bool :=
  (List.range (hay.length + 1)).any (fun i => pat.isPrefixOf (hay.drop i))

/-- `strContains hay pat`: `pat` is a (case-sensitive) substring of `hay`;
embeds `hay` matching the literal regex `pat` under `Series.str.contains`. -/
def strContains (hay pat : String) : Bool :=
  listContains hay.toList pat.toList

/-- One entry of a parser's mapping dict: the canonical label (the dict
key) and the literal alternatives of its regex (the dict value). -/
structure Rule where
  label : String
  pats : List String
deriving DecidableEq

/-- A rule matches a text value when any of its literal alternatives is a
substring of the value. -/
def ruleMatches (r : Rule) (s : String) : Bool :=
  r.pats.any (fun p => strContains s p)

/-- Truthiness of an `np.where` condition cell: a missing cell
(`str.contains` returned `NaN`) is truthy, a boolean cell is itself. -/
def npTruthy : Option Bool → Bool
  | none => true
  | some b => b

/-- The `np.where` overwrite loop: walk the rules in table order and
overwrite the accumulated label whenever the rule matches. -/
def overwriteFold {α : Type} (m : α → Bool) (lab : α → String)
    (rules : List α) (init : String) : String :=
  rules.foldl (fun acc r => if m r then lab r else acc) init

/-- The categorical remapping engine shared by the parsers: start from the
`"nan"` sentinel and run the overwrite loop over the rule table.  `v` is
one cell of the input Series (`none` = missing). -/
def classify (rules : List Rule) (v : Option String) : String :=
  overwriteFold (fun r => npTruthy (v.map (fun s => ruleMatches r s)))
    Rule.label rules "nan"

/-- Rule table of `parse_gender`: `{"Male": "M", "Female": "F"}`. -/
def genderRules : List Rule :=
  [⟨"Male", ["M"]⟩, ⟨"Female", ["F"]⟩]

/-- `parse_gender`: classify, then `replace("nan", "Other")`. -/
def parse_gender (values : List (Option String)) : List String :=
  values.map (fun v =>
    let m := classify genderRules v
    if m = "nan" then "Other" else m)

/-- Rule table of `parse_race`. -/
def raceRules : List Rule :=
  [⟨"White", ["WHITE", "PORTUGUESE"]⟩,
   ⟨"Hispanic", ["HISPANIC"]⟩,
   ⟨"Asian", ["ASIAN"]⟩,
   ⟨"Black", ["BLACK"]⟩,
   ⟨"Other", ["OTHER", "SOUTH AMERICAN", "CARIBBEAN ISLAND",
     "NATIVE HAWAIIAN OR OTHER PACIFIC ISLANDER",
     "AMERICAN INDIAN/ALASKA NATIVE FEDERALLY RECOGNIZED TRIBE"]⟩]

/-- `parse_race`: classify, then `replace("nan", "Unknown")`. -/
def parse_race (values : List (Option String)) : List String :=
  values.map (fun v =>
    let m := classify raceRules v
    if m = "nan" then "Unknown" else m)

/-- Rule table of `parse_language` (the regex `"(\?)"` is the literal
`"?"`). -/
def languageRules : List Rule :=
  [⟨"English", ["ENGLISH"]⟩, ⟨"Other", ["?"]⟩]

/-- `parse_language`: classify only; the `"nan"` sentinel is returned
as is (no `replace` step in the source). -/
def parse_language (values : List (Option String)) : List String :=
  values.map (fun v => classify languageRules v)

/-- Rule table of `parse_insurance`. -/
def insuranceRules : List Rule :=
  [⟨"Medicaid", ["Medicaid"]⟩, ⟨"Medicare", ["Medicare"]⟩,
   ⟨"Other", ["Other"]⟩]

/-- `parse_insurance`: classify only; no `replace` step. -/
def parse_insurance (values : List (Option String)) : List String :=
  values.map (fun v => classify insuranceRules v)

/-- Rule table of `parse_careunit`. -/
def careunitRules : List Rule :=
  [⟨"Medical-Surgical", ["Medical Intensive Care Unit",
     "Medical/Surgical Intensive Care Unit",
     "Surgical Intensive Care Unit"]⟩,
   ⟨"Cardiac", ["Cardiac Vascular Intensive Care Unit",
     "Coronary Care Unit"]⟩,
   ⟨"Neuro-Trauma", ["Neuro Intermediate", "Neuro Stepdown",
     "Neuro Surgical Intensive Care Unit", "Trauma SICU"]⟩]

/-- `parse_careunit`: classify only; no `replace` step. -/
def parse_careunit (values : List (Option String)) : List String :=
  values.map (fun v => classify careunitRules v)

/-- Rule table of `parse_time`: bucket label and the two bounds handed to
`Series.between`, which is inclusive at both endpoints. -/
def timeRules : List (String × Nat × Nat) :=
  [("00-06", (0, 6)), ("06-12", (6, 12)), ("12-18", (12, 18)),
   ("18-24", (18, 24))]

/-- `hour.between(lo, hi)`: inclusive at both endpoints. -/
def timeMatches (h : Nat) (r : String × Nat × Nat) : Bool :=
  r.2.1 ≤ h && h ≤ r.2.2

/-- The per-hour computation of `parse_time`: the same overwrite loop over
the four hour ranges. -/
def parse_time_hour (h : Nat) : String :=
  overwriteFold (timeMatches h) (fun r => r.1) timeRules "nan"

/-- `parse_time` on a Series of valid timestamps, carried by their hour
(`values.dt.hour`). -/
def parse_time (hours : List Nat) : List String :=
  hours.map parse_time_hour

/-- Python exceptions that the embedded code can raise.
`outOfRangeError` is the error class posited by the specification for
out-of-range anchor deltas; the source itself never constructs it. -/
inductive PyError where
  | unboundLocalError
  | outOfRangeError
  | valueError
  | zeroDivisionError
deriving DecidableEq

deriving instance DecidableEq for Except

/-- The five `delta_anchors` ranges of `anchor_delta`, each `[lo, hi)`. -/
def anchorRanges : List (Int × Int) :=
  [(2008, 2011), (2011, 2014), (2014, 2017), (2017, 2020), (2020, 2023)]

/-- The f-string label of a range. -/
def bucketLabel (p : Int × Int) : String :=
  toString p.1 ++ " - " ++ toString p.2

/-- `anchor_delta`: walk the five ranges, assigning `output` on each hit;
reading `output` when no range ever hit raises `UnboundLocalError`. -/
def anchor_delta (delta : Int) : Except PyError String :=
  match anchorRanges.foldl
      (fun acc p => if p.1 ≤ delta ∧ delta < p.2 then some (bucketLabel p)
        else acc) none with
  | some s => Except.ok s
  | none => Except.error PyError.unboundLocalError

/-- Both-ends whitespace stripping, as `int()` does before parsing. -/
def stripSpaces (cs : List Char) : List Char :=
  ((cs.dropWhile (fun c => c = ' ')).reverse.dropWhile
    (fun c => c = ' ')).reverse

/-- Python `int()` on the decimal text held by `cs` (ASCII digits after
stripping surrounding spaces); `none` embeds `ValueError`. -/
def pyIntOfChars (cs : List Char) : Option Nat :=
  let t := stripSpaces cs
  if t.length ≠ 0 ∧ t.all Char.isDigit then
    some (t.foldl (fun n c => 10 * n + (c.toNat - 48)) 0)
  else none

/-- `int(x.split("-")[0].strip(""))` of the source: the text before the
first `"-"` (`strip("")` strips nothing; `int()` tolerates spaces). -/
def parseGroupFirstYear (s : String) : Option Nat :=
  pyIntOfChars (s.toList.takeWhile (fun c => ¬(c = '-')))

/-- One row of `parse_anchor_year`: representative offset = first year of
the group plus one; `delta = offset + (date.dt.year - anchor_year)`. -/
def parse_anchor_year_row (group : String) (dateYear anchorYear : Int) :
    Except PyError String :=
  match parseGroupFirstYear group with
  | none => Except.error PyError.valueError
  | some y => anchor_delta ((y : Int) + 1 + (dateYear - anchorYear))

/-- Fail-fast effectful map, embedding `Series.apply` of a function that
can raise: the first raising row aborts the whole call. -/
def mapExcept {α β ε : Type} (f : α → Except ε β) :
    List α → Except ε (List β)
  | [] => Except.ok []
  | a :: as =>
    match f a with
    | Except.error e => Except.error e
    | Except.ok b =>
      match mapExcept f as with
      | Except.error e => Except.error e
      | Except.ok bs => Except.ok (b :: bs)

/-- `parse_anchor_year` over three aligned Series (dates carried by their
year, the only attribute the source reads). -/
def parse_anchor_year (groups : List String)
    (dateYears anchorYears : List Int) : Except PyError (List String) :=
  mapExcept (fun x => parse_anchor_year_row x.1 x.2.1 x.2.2)
    (groups.zip (dateYears.zip anchorYears))

/-- One row of the `parse_bmi` input frame: `weight`, `height` (missing
allowed) and `race` columns. -/
structure BmiRow where
  weight : Rat
  height : Option Rat
  race : String
deriving DecidableEq

/-- `bmi < x` with NaN semantics: a missing BMI compares false. -/
def bmiLt (b : Option Rat) (x : Rat) : Bool :=
  match b with
  | none => false
  | some v => decide (v < x)

/-- `bmi >= x` with NaN semantics: a missing BMI compares false. -/
def bmiGe (b : Option Rat) (x : Rat) : Bool :=
  match b with
  | none => false
  | some v => decide (x ≤ v)

/-- ASCII lowering of one character, embedding `str.lower()` on the
ASCII alphabet the ethnicity check uses. -/
def pyLowerChar (c : Char) : Char :=
  if 'A' ≤ c ∧ c ≤ 'Z' then Char.ofNat (c.toNat + 32) else c

/-- `"asian" in ethnicity.lower()`. -/
def asianCheck (ethnicity : String) : Bool :=
  listContains (ethnicity.toList.map pyLowerChar) "asian".toList

/-- The inner row classifier of `parse_bmi` (the nested `if` chain of its
local function).  A `none` BMI is a `NaN` (every comparison false), so
the final `else` yields `"Unknown or Unavailable"`.  Inside the
`bmi >= 18.5` branch the sub-chains have no `else`, so a fall-through
there would read the never-assigned `output`: `UnboundLocalError`
(unreachable for an actual rational BMI, kept for fidelity). -/
def parseBmiRow (bmi : Option Rat) (ethnicity : String) :
    Except PyError String :=
  if bmiLt bmi (33/2) then Except.ok "Severly Underweight"
  else if bmiGe bmi (33/2) && bmiLt bmi (37/2) then Except.ok "Underweight"
  else if bmiGe bmi (37/2) then
    (if asianCheck ethnicity then
      (if bmiGe bmi (37/2) && bmiLt bmi 23 then Except.ok "Normal"
       else if bmiGe bmi 23 && bmiLt bmi 25 then Except.ok "Overweight"
       else if bmiGe bmi 25 then Except.ok "Obesity"
       else Except.error PyError.unboundLocalError)
     else
      (if bmiGe bmi (37/2) && bmiLt bmi 25 then Except.ok "Normal"
       else if bmiGe bmi 25 && bmiLt bmi 30 then Except.ok "Overweight"
       else if bmiGe bmi 30 then Except.ok "Obesity"
       else Except.error PyError.unboundLocalError))
  else Except.ok "Unknown or Unavailable"

/-- `temp.height.astype(float).mean()`: mean of the non-missing heights,
`none` (NaN) when every height is missing. -/
def heightMean (rows : List BmiRow) : Option Rat :=
  let hs := rows.filterMap BmiRow.height
  if hs.length = 0 then none else some (hs.sum / (hs.length : Rat))

/-- `temp.height = temp.height.fillna(mean)`: substitute the batch mean
for missing heights (a NaN mean fills nothing). -/
def imputeHeights (rows : List BmiRow) : List BmiRow :=
  match heightMean rows with
  | none => rows
  | some m =>
    rows.map (fun r => BmiRow.mk r.weight (some (r.height.getD m)) r.race)

/-- `weight * ((height / 100) ** -2)` for one row: missing height gives a
NaN BMI; a zero height raises `ZeroDivisionError`. -/
def rowBmi (r : BmiRow) : Except PyError (Option Rat) :=
  match r.height with
  | none => Except.ok none
  | some h =>
    if h = 0 then Except.error PyError.zeroDivisionError
    else Except.ok (some (r.weight * ((h / 100) ^ 2)⁻¹))

/-- `parse_bmi`: optionally impute missing heights from the batch's own
mean, compute each row's BMI, classify each row. -/
def parse_bmi (values : List BmiRow) (impute_heights : Bool) :
    Except PyError (List String) :=
  let temp := if impute_heights then imputeHeights values else values
  mapExcept (fun r =>
    match rowBmi r with
    | Except.error e => Except.error e
    | Except.ok b => parseBmiRow b r.race) temp

/-! ## General lemmas about the overwrite loop -/

theorem overwriteFold_cons {α : Type} (m : α → Bool) (lab : α → String)
    (a : α) (as : List α) (init : String) :
    overwriteFold m lab (a :: as) init =
      overwriteFold m lab as (if m a then lab a else init) := rfl

theorem overwriteFold_append {α : Type} (m : α → Bool) (lab : α → String)
    (l₁ l₂ : List α) (init : String) :
    overwriteFold m lab (l₁ ++ l₂) init =
      overwriteFold m lab l₂ (overwriteFold m lab l₁ init) := by
  unfold overwriteFold
  exact List.foldl_append _ _ _ _

theorem overwriteFold_no_match {α : Type} (m : α → Bool) (lab : α → String)
    (rules : List α) (init : String) (h : ∀ r ∈ rules, m r = false) :
    overwriteFold m lab rules init = init := by
  induction rules generalizing init with
  | nil => rfl
  | cons a as ih =>
    have ha : m a = false := h a (by simp)
    rw [overwriteFold_cons, ha]
    simpa using ih init (fun r hr => h r (by simp [hr]))

/-- When every rule of a table fails to match a present value, `classify`
returns the `"nan"` sentinel it started from. -/
theorem classify_no_match (rules : List Rule) (v : String)
    (h : ∀ r ∈ rules, ruleMatches r v = false) :
    classify rules (some v) = "nan" :=
  overwriteFold_no_match _ _ rules "nan" (fun r hr => h r hr)

/-! ## C1 -/

/-- C1 (amended): in the overwrite loop, the LAST matching rule of the
table wins, not the first: for any rule table split as
`rules₁ ++ r :: rules₂` where `r` matches the value and no rule after `r`
matches, `classify` returns `r`'s label regardless of what `rules₁`
matched; likewise in the time-of-day parser, an hour matched by both the
`00-06` and the `06-12` rule is assigned the later bucket `06-12`. -/
theorem C1_last_match_wins :
    (∀ (rules₁ rules₂ : List Rule) (r : Rule) (v : String),
        ruleMatches r v = true →
        (∀ q ∈ rules₂, ruleMatches q v = false) →
        classify (rules₁ ++ r :: rules₂) (some v) = r.label) ∧
    (∀ h : Nat, timeMatches h ("00-06", 0, 6) = true →
        timeMatches h ("06-12", 6, 12) = true →
        parse_time_hour h = "06-12") := by
  constructor
  · intro rules₁ rules₂ r v hr h2
    show overwriteFold _ _ (rules₁ ++ r :: rules₂) "nan" = r.label
    rw [overwriteFold_append, overwriteFold_cons]
    have hm : npTruthy (Option.map (fun s => ruleMatches r s) (some v)) =
        true := hr
    rw [hm]
    simp only [if_true]
    exact overwriteFold_no_match _ _ rules₂ _ (fun q hq => h2 q hq)
  · intro h h1 h2
    have : h = 6 := by
      simp only [timeMatches, Bool.and_eq_true, decide_eq_true_eq] at h1 h2
      omega
    subst this
    decide

/-- Witness for C1: the race value `"WHITE - OTHER EUROPEAN"` matches both
the first rule (`White`) and the last rule (`Other`) of the race table,
and the code assigns the later rule's label `"Other"`; hour 6 is assigned
`"06-12"`. -/
theorem C1_witness :
    classify raceRules (some "WHITE - OTHER EUROPEAN") = "Other" ∧
    parse_time_hour 6 = "06-12" := by
  constructor
  · exact C1_last_match_wins.1
      [⟨"White", ["WHITE", "PORTUGUESE"]⟩, ⟨"Hispanic", ["HISPANIC"]⟩,
       ⟨"Asian", ["ASIAN"]⟩, ⟨"Black", ["BLACK"]⟩] []
      ⟨"Other", ["OTHER", "SOUTH AMERICAN", "CARIBBEAN ISLAND",
        "NATIVE HAWAIIAN OR OTHER PACIFIC ISLANDER",
        "AMERICAN INDIAN/ALASKA NATIVE FEDERALLY RECOGNIZED TRIBE"]⟩
      "WHITE - OTHER EUROPEAN" (by decide) (by intro q hq; simp at hq)
  · exact C1_last_match_wins.2 6 (by decide) (by decide)

/-- C1 counterexample: the claim (first matching rule wins) is false on
the code: `"WHITE - OTHER EUROPEAN"` matches the first race rule
(`White`, pattern `WHITE`) and also the later `Other` rule, yet
`parse_race` assigns `"Other"`, not the earlier rule's `"White"`. -/
theorem C1_counterexample :
    ruleMatches ⟨"White", ["WHITE", "PORTUGUESE"]⟩
      "WHITE - OTHER EUROPEAN" = true ∧
    parse_race [some "WHITE - OTHER EUROPEAN"] = ["Other"] ∧
    (["Other"] : List String) ≠ ["White"] := by decide

/-! ## C2 -/

/-- C2 (amended): unmatched and missing values never raise, but only
`parse_gender` and `parse_race` substitute a default for the unmatched
sentinel (`"Other"` / `"Unknown"`): `parse_careunit`, `parse_language`
and `parse_insurance` return the raw sentinel string `"nan"` for an
unmatched value; and a missing value, whose `str.contains` result is a
truthy `NaN` under `np.where`, is overwritten by every rule and so
receives the LAST rule's label, not the default (`"Female"` for gender,
`"Neuro-Trauma"` for care unit, `"Other"` for race). -/
theorem C2_unmatched_and_missing (v : String)
    (hcu : ∀ r ∈ careunitRules, ruleMatches r v = false)
    (hlang : ∀ r ∈ languageRules, ruleMatches r v = false)
    (hins : ∀ r ∈ insuranceRules, ruleMatches r v = false)
    (hg : ∀ r ∈ genderRules, ruleMatches r v = false)
    (hrace : ∀ r ∈ raceRules, ruleMatches r v = false) :
    parse_careunit [some v] = ["nan"] ∧
    parse_language [some v] = ["nan"] ∧
    parse_insurance [some v] = ["nan"] ∧
    parse_gender [some v] = ["Other"] ∧
    parse_race [some v] = ["Unknown"] ∧
    parse_gender [none] = ["Female"] ∧
    parse_careunit [none] = ["Neuro-Trauma"] ∧
    parse_race [none] = ["Other"] := by
  have h1 := classify_no_match careunitRules v hcu
  have h2 := classify_no_match languageRules v hlang
  have h3 := classify_no_match insuranceRules v hins
  have h4 := classify_no_match genderRules v hg
  have h5 := classify_no_match raceRules v hrace
  refine ⟨?_, ?_, ?_, ?_, ?_, by decide, by decide, by decide⟩ <;>
    simp [parse_careunit, parse_language, parse_insurance, parse_gender,
      parse_race, h1, h2, h3, h4, h5]

/-- Witness for C2: the value `"xyz"` matches no rule of any table. -/
theorem C2_witness :
    parse_careunit [some "xyz"] = ["nan"] ∧
    parse_language [some "xyz"] = ["nan"] ∧
    parse_insurance [some "xyz"] = ["nan"] ∧
    parse_gender [some "xyz"] = ["Other"] ∧
    parse_race [some "xyz"] = ["Unknown"] ∧
    parse_gender [none] = ["Female"] ∧
    parse_careunit [none] = ["Neuro-Trauma"] ∧
    parse_race [none] = ["Other"] :=
  C2_unmatched_and_missing "xyz" (by decide) (by decide) (by decide)
    (by decide) (by decide)

/-- C2 counterexample: the claim is false on the code: the unmatched care
unit `"Emergency Department"` gets the raw sentinel `"nan"`, not a
configured default label, and a missing gender value gets `"Female"`,
not gender's configured default `"Other"`. -/
theorem C2_counterexample :
    parse_careunit [some "Emergency Department"] = ["nan"] ∧
    parse_gender [none] = ["Female"] ∧
    (["Female"] : List String) ≠ ["Other"] := by decide

/-! ## C3 -/

/-- C3 (amended): the five anchor buckets partition `[2008, 2023)`: every
integer delta in a bucket `[lo, hi)` resolves to that bucket's label
`"lo - hi"`, and every delta below 2008 or at or above 2023 raises an
error — but the error is `UnboundLocalError` (reading the never-assigned
`output` local), not a dedicated `OutOfRangeError`. -/
theorem C3_anchor_buckets :
    (∀ d : Int, 2008 ≤ d → d < 2011 →
      anchor_delta d = Except.ok "2008 - 2011") ∧
    (∀ d : Int, 2011 ≤ d → d < 2014 →
      anchor_delta d = Except.ok "2011 - 2014") ∧
    (∀ d : Int, 2014 ≤ d → d < 2017 →
      anchor_delta d = Except.ok "2014 - 2017") ∧
    (∀ d : Int, 2017 ≤ d → d < 2020 →
      anchor_delta d = Except.ok "2017 - 2020") ∧
    (∀ d : Int, 2020 ≤ d → d < 2023 →
      anchor_delta d = Except.ok "2020 - 2023") ∧
    (∀ d : Int, d < 2008 ∨ 2023 ≤ d →
      anchor_delta d = Except.error PyError.unboundLocalError) := by
  refine ⟨?_, ?_, ?_, ?_, ?_, ?_⟩ <;> intro d h1 <;>
    first
    | (intro h2
       simp only [anchor_delta, anchorRanges, List.foldl_cons,
         List.foldl_nil]
       split_ifs <;> first | rfl | omega)
    | (simp only [anchor_delta, anchorRanges, List.foldl_cons,
         List.foldl_nil]
       split_ifs <;> first | rfl | omega)

/-- Witness for C3: one delta inside each bucket and one outside. -/
theorem C3_witness :
    anchor_delta 2009 = Except.ok "2008 - 2011" ∧
    anchor_delta 2012 = Except.ok "2011 - 2014" ∧
    anchor_delta 2015 = Except.ok "2014 - 2017" ∧
    anchor_delta 2018 = Except.ok "2017 - 2020" ∧
    anchor_delta 2021 = Except.ok "2020 - 2023" ∧
    anchor_delta 2023 = Except.error PyError.unboundLocalError :=
  ⟨C3_anchor_buckets.1 2009 (by decide) (by decide),
   C3_anchor_buckets.2.1 2012 (by decide) (by decide),
   C3_anchor_buckets.2.2.1 2015 (by decide) (by decide),
   C3_anchor_buckets.2.2.2.1 2018 (by decide) (by decide),
   C3_anchor_buckets.2.2.2.2.1 2021 (by decide) (by decide),
   C3_anchor_buckets.2.2.2.2.2 2023 (Or.inr (by decide))⟩

/-- C3 counterexample: an out-of-range delta does raise, but the raised
error is `UnboundLocalError` (the loop never assigned `output`), not the
`OutOfRangeError` the claim names. -/
theorem C3_counterexample :
    anchor_delta 2023 = Except.error PyError.unboundLocalError ∧
    (Except.error PyError.unboundLocalError : Except PyError String) ≠
      Except.error PyError.outOfRangeError := by
  refine ⟨by decide, ?_⟩
  intro h
  exact absurd (Except.error.inj h) (by decide)

/-! ## C4 -/

/-- C4 (amended): on `["MALE", "Female", "unknown"]` the gender parser
returns `["Male", "Female", "Other"]`: in the source's mapping dict
`{"Male": "M", "Female": "F"}` the dict KEYS (`Male` / `Female`) are the
assigned labels and the dict values (`M` / `F`) are the match patterns,
so outputs are the full words, not the single letters. -/
theorem C4_gender_scenario :
    parse_gender [some "MALE", some "Female", some "unknown"] =
      ["Male", "Female", "Other"] := by decide

/-- C4 counterexample: the claimed output `["M", "F", "Other"]` is not
what the code returns on `["MALE", "Female", "unknown"]`. -/
theorem C4_counterexample :
    parse_gender [some "MALE", some "Female", some "unknown"] =
      ["Male", "Female", "Other"] ∧
    (["Male", "Female", "Other"] : List String) ≠ ["M", "F", "Other"] := by
  decide

/-! ## C5 -/

/-- C5 (amended): race and care-unit matching is case-SENSITIVE substring
matching (`str.contains` is called with its default `case=True`):
changing the letter case of a value can change the assigned label —
`"WHITE"` is labelled `"White"` but `"white"` falls through to
`"Unknown"`, and `"Coronary Care Unit"` is labelled `"Cardiac"` but
`"CORONARY CARE UNIT"` keeps the `"nan"` sentinel. -/
theorem C5_case_sensitive :
    parse_race [some "WHITE"] = ["White"] ∧
    parse_race [some "white"] = ["Unknown"] ∧
    parse_careunit [some "Coronary Care Unit"] = ["Cardiac"] ∧
    parse_careunit [some "CORONARY CARE UNIT"] = ["nan"] := by decide

/-- C5 counterexample: lowering the case of `"WHITE"` changes the label
`parse_race` assigns, so matching is not case-insensitive. -/
theorem C5_counterexample :
    parse_race [some "WHITE"] = ["White"] ∧
    parse_race [some "white"] = ["Unknown"] ∧
    (["White"] : List String) ≠ ["Unknown"] := by decide

/-! ## C6 -/

/-- C6 (code bug): the first four boundary cases hold — BMI 18.5 with
ethnicity `"Asian"` is `"Normal"` (it lands in the ethnicity-conditional
branch, not `"Underweight"`); 18.49 is `"Underweight"`; 25.0 Asian is
`"Obesity"`; 24.9 Asian is `"Overweight"` — but the fifth fails: for the
non-Asian ethnicity `"Caucasian"` the lowered text `"caucasian"`
CONTAINS the substring `"asian"`, so the code routes it into the
Asian-threshold branch and labels BMI 29.9 `"Obesity"` instead of the
claimed `"Overweight"` (with an ethnicity that truly fails the substring
test, such as `"White"`, 29.9 is `"Overweight"`). -/
theorem C6_bmi_boundaries_eval :
    parseBmiRow (some (37/2)) "Asian" = Except.ok "Normal" ∧
    parseBmiRow (some (1849/100)) "Asian" = Except.ok "Underweight" ∧
    parseBmiRow (some 25) "Asian" = Except.ok "Obesity" ∧
    parseBmiRow (some (249/10)) "Asian" = Except.ok "Overweight" ∧
    asianCheck "Caucasian" = true ∧
    parseBmiRow (some (299/10)) "Caucasian" = Except.ok "Obesity" ∧
    parseBmiRow (some (299/10)) "White" = Except.ok "Overweight" := by
  have ha : asianCheck "Asian" = true := by decide
  have hc : asianCheck "Caucasian" = true := by decide
  have hw : asianCheck "White" = false := by decide
  refine ⟨?_, ?_, ?_, ?_, hc, ?_, ?_⟩ <;>
    norm_num [parseBmiRow, bmiLt, bmiGe, ha, hc, hw]

/-! ## C7 -/

/-- C7 (amended): every BMI below 16.5 is labelled with the string the
code actually holds, `"Severly Underweight"` (sic) — the code misspells
the claimed `"Severely Underweight"`. -/
theorem C7_below_threshold (b : Rat) (eth : String) (hb : b < 33/2) :
    parseBmiRow (some b) eth = Except.ok "Severly Underweight" := by
  have h : bmiLt (some b) (33/2) = true := decide_eq_true hb
  unfold parseBmiRow
  rw [h]
  simp

/-- Witness for C7: a row with BMI 15.625 (weight 40 kg, height 160 cm). -/
theorem C7_witness :
    (40 : Rat) * (((160 : Rat) / 100) ^ 2)⁻¹ < 33/2 ∧
    parseBmiRow (some ((40 : Rat) * (((160 : Rat) / 100) ^ 2)⁻¹)) "White" =
      Except.ok "Severly Underweight" :=
  ⟨by norm_num,
   C7_below_threshold ((40 : Rat) * (((160 : Rat) / 100) ^ 2)⁻¹) "White"
     (by norm_num)⟩

/-- C7 counterexample: on a whole row through `parse_bmi` (weight 40 kg,
height 160 cm, BMI 15.625 < 16.5) the emitted label is the misspelled
`"Severly Underweight"`, not the claimed `"Severely Underweight"`. -/
theorem C7_counterexample :
    parse_bmi [BmiRow.mk 40 (some 160) "White"] false =
      Except.ok ["Severly Underweight"] ∧
    (Except.ok ["Severly Underweight"] : Except PyError (List String)) ≠
      Except.ok ["Severely Underweight"] := by
  constructor
  · have hw : asianCheck "White" = false := by decide
    norm_num [parse_bmi, mapExcept, rowBmi, parseBmiRow, bmiLt, bmiGe, hw]
  · decide

/-! ## C8 -/

/-- C8 (amended): for `anchor_year_group = "2017 - 2019"`,
`anchor_year = 2018` and an event year of 2019, the representative
offset is `2017 + 1 = 2018`, so `delta = 2018 + (2019 - 2018) = 2019`,
which falls in the `[2017, 2020)` bucket: the resolver returns
`"2017 - 2020"`, not `"2020 - 2023"`. -/
theorem C8_anchor_scenario :
    parse_anchor_year ["2017 - 2019"] [2019] [2018] =
      Except.ok ["2017 - 2020"] := by decide

/-- C8 counterexample: the claimed bucket `"2020 - 2023"` is not what the
code returns for that scenario. -/
theorem C8_counterexample :
    parse_anchor_year ["2017 - 2019"] [2019] [2018] =
      Except.ok ["2017 - 2020"] ∧
    (Except.ok ["2017 - 2020"] : Except PyError (List String)) ≠
      Except.ok ["2020 - 2023"] := by decide

/-! ## C10 -/

/-- C10 (confirmed): `between` is inclusive at both endpoints, so the
boundary hours 6, 12 and 18 each match two adjacent time rules and the
overwrite loop assigns them the later bucket (`"06-12"`, `"12-18"`,
`"18-24"`); every hour 0–23 matches at least one rule, and every valid
hour is assigned one of the four bucket labels, never the `"nan"`
sentinel. -/
theorem C10_time_buckets :
    (∀ h : Nat, h < 24 →
      (parse_time_hour h = "00-06" ∨ parse_time_hour h = "06-12" ∨
       parse_time_hour h = "12-18" ∨ parse_time_hour h = "18-24")) ∧
    (∀ h : Nat, h < 24 →
      1 ≤ timeRules.countP (fun r => timeMatches h r)) ∧
    timeRules.countP (fun r => timeMatches 6 r) = 2 ∧
    timeRules.countP (fun r => timeMatches 12 r) = 2 ∧
    timeRules.countP (fun r => timeMatches 18 r) = 2 ∧
    parse_time_hour 6 = "06-12" ∧
    parse_time_hour 12 = "12-18" ∧
    parse_time_hour 18 = "18-24" ∧
    (∀ h : Nat, h < 24 → parse_time [h] ≠ ["nan"]) := by decide

/-- Witness for C10: hour 0 is assigned a bucket label, matches a rule,
and is not the sentinel. -/
theorem C10_witness :
    (parse_time_hour 0 = "00-06" ∨ parse_time_hour 0 = "06-12" ∨
     parse_time_hour 0 = "12-18" ∨ parse_time_hour 0 = "18-24") ∧
    1 ≤ timeRules.countP (fun r => timeMatches 0 r) ∧
    parse_time [0] ≠ ["nan"] :=
  ⟨C10_time_buckets.1 0 (by decide),
   C10_time_buckets.2.1 0 (by decide),
   C10_time_buckets.2.2.2.2.2.2.2.2 0 (by decide)⟩

/-! ## C9 -/

/-- C9 (amended): when imputation is enabled, the height substituted for
a missing value is the mean of the batch's OWN non-missing heights —
there is no caller-supplied population mean parameter: in a two-row
batch whose only present height is `h2`, the missing height of the first
row is replaced by `h2` itself, so the whole call behaves exactly like
the batch in which the first row already carried the other row's height.
Row `i`'s label therefore depends on the other rows' heights, and the
claimed batch-insensitivity fails. -/
theorem C9_mean_from_batch (w w2 h2 : Rat) (eth eth2 : String) :
    parse_bmi [BmiRow.mk w none eth, BmiRow.mk w2 (some h2) eth2] true =
      parse_bmi [BmiRow.mk w (some h2) eth, BmiRow.mk w2 (some h2) eth2]
        false := by
  have hm : heightMean [BmiRow.mk w none eth, BmiRow.mk w2 (some h2) eth2] =
      some h2 := by
    simp [heightMean, List.filterMap]
  simp [parse_bmi, imputeHeights, hm, Option.getD]

/-- C9 counterexample: two batches agreeing on row 0 (weight 70, missing
height, race `"White"`) but differing on row 1's height receive
different labels for row 0 under imputation: with the other height 180
row 0 is `"Normal"` (imputed BMI `70 / 1.8² ≈ 21.6`), with 100 it is
`"Obesity"` (imputed BMI 70) — refuting the claim that row `i`'s label
is independent of the other rows' heights. -/
theorem C9_counterexample :
    List.head? [BmiRow.mk 70 none "White", BmiRow.mk 70 (some 180) "White"] =
      List.head? [BmiRow.mk 70 none "White",
        BmiRow.mk 70 (some 100) "White"] ∧
    parse_bmi [BmiRow.mk 70 none "White", BmiRow.mk 70 (some 180) "White"]
      true = Except.ok ["Normal", "Normal"] ∧
    parse_bmi [BmiRow.mk 70 none "White", BmiRow.mk 70 (some 100) "White"]
      true = Except.ok ["Obesity", "Obesity"] := by
  have hw : asianCheck "White" = false := by decide
  have hm1 : heightMean [BmiRow.mk 70 none "White",
      BmiRow.mk 70 (some 180) "White"] = some 180 := by
    norm_num [heightMean, List.filterMap]
  have hm2 : heightMean [BmiRow.mk 70 none "White",
      BmiRow.mk 70 (some 100) "White"] = some 100 := by
    norm_num [heightMean, List.filterMap]
  have hi1 : imputeHeights [BmiRow.mk 70 none "White",
      BmiRow.mk 70 (some 180) "White"] =
      [BmiRow.mk 70 (some 180) "White", BmiRow.mk 70 (some 180) "White"] := by
    unfold imputeHeights
    rw [hm1]
    simp [Option.getD]
  have hi2 : imputeHeights [BmiRow.mk 70 none "White",
      BmiRow.mk 70 (some 100) "White"] =
      [BmiRow.mk 70 (some 100) "White", BmiRow.mk 70 (some 100) "White"] := by
    unfold imputeHeights
    rw [hm2]
    simp [Option.getD]
  refine ⟨rfl, ?_, ?_⟩
  · simp only [parse_bmi, if_true, hi1]
    norm_num [mapExcept, rowBmi, parseBmiRow, bmiLt, bmiGe, hw]
  · simp only [parse_bmi, if_true, hi2]
    norm_num [mapExcept, rowBmi, parseBmiRow, bmiLt, bmiGe, hw]

end MimicUtils
